import Mathlib

/-!
Verification development for the translator-frontend repository.

The definitions below are shallow embeddings of the client-side polling,
token-refresh, HTTP-retry, result-fetch and recovery logic found in
src/src/components/DocumentTranslation.jsx and src/src/services/api.js.
Each definition carries a comment pointing at the source lines it embeds.

Modelling conventions:
- JavaScript numbers used as millisecond durations are modelled as Rat
  (exact arithmetic; the clamps min/max involved here are unaffected by
  binary floating point rounding at the inputs we reason about, and
  powers of 1.5 at small exponents are exactly representable anyway).
- Timestamps are Nat or Int milliseconds.
- Math.random jitter is modelled as an integer parameter; the source
  computes Math.floor(Math.random() * 1000) - 500, which lies in
  the integer range [-500, 499].
- Fallible JS code (throw / reject) is modelled with Except.
- React semantics: a component render produces closures (useCallback
  values) that capture that render state; setState with a function
  argument updates the latest state; setTimeout stores the closure of
  the render that armed it, and that exact closure runs when the timer
  fires.  This capture behaviour is what the poller model below makes
  explicit via RenderSnapshot.
-/

/-! ## Poll interval computation

Embeds getPollInterval, DocumentTranslation.jsx lines 188-232, and the
error-path backoff of pollTranslationStatus, lines 304-307. -/

/-- Base interval selection of getPollInterval (lines 193-215):
2000 ms default; 1500 ms when status checks are stalled; 1500 ms for
status pending; for in_progress, 2000/3000/4000 ms by progress bands
(below 25, below 75, otherwise). -/
def pollBaseInterval (status : Option String) (progress : Nat) (isStalled : Bool) : ℚ :=
  if isStalled then 1500
  else if status = some "pending" then 1500
  else if status = some "in_progress" then
    if progress < 25 then 2000
    else if progress < 75 then 3000
    else 4000
  else 2000

/-- Failure backoff of getPollInterval (lines 222-224):
failures greater than 0 contribute min(1.5 ^ failures * 1000, 15000),
otherwise 0. -/
def failureBackoff (failures : Nat) : ℚ :=
  if failures > 0 then min ((3 / 2 : ℚ) ^ failures * 1000) 15000 else 0

/-- Final interval of getPollInterval (line 227):
max(1000, baseInterval + jitter + failureBackoff).  The jitter argument
stands for Math.floor(Math.random() * 1000) - 500, an integer in
[-500, 499]. -/
def getPollInterval (status : Option String) (progress : Nat) (isStalled : Bool)
    (failures : Nat) (jitter : ℤ) : ℚ :=
  max 1000 (pollBaseInterval status progress isStalled + (jitter : ℚ) + failureBackoff failures)

/-- Error-path retry delay of pollTranslationStatus (line 305):
min(2000 * 1.5 ^ consecFailures, 30000).  Note the 30000 ms ceiling,
which differs from the 15000 ms ceiling inside getPollInterval. -/
def pollErrorBackoff (failures : Nat) : ℚ :=
  min (2000 * (3 / 2 : ℚ) ^ failures) 30000

/-! ## Poller state machine

Embeds the polling logic of DocumentTranslation.jsx: the translationStatus
record (lines 44-56), pollTranslationStatus (lines 235-309), the polling
useEffect (lines 312-330) and handleCancel (lines 800-826).

React closure capture is modelled explicitly.  pollTranslationStatus is a
useCallback closure; the closure created at a render captures that render
translationStatus and consecFailures.  Both setTimeout calls inside the
closure (lines 278 and 307) re-arm the timer with the closure itself, so
a timer chain keeps executing the snapshot of the render that seeded it.
State writers use functional updates (setTranslationStatus(prev => ...),
setConsecFailures(prev => prev + 1)), which act on the latest state, while
plain reads inside the closure (the destructuring at line 236, the
consecFailures comparison at line 288) see only the captured snapshot. -/

/-- Server status payload consumed by the poll success path
(statusData at line 248, fields read at lines 256-259). -/
structure StatusData where
  status : String
  progress : Nat
  currentPage : Nat
  totalPages : Nat
deriving DecidableEq, Repr

/-- The translationStatus record (DocumentTranslation.jsx lines 44-56).
Fields not touched by the poller or handleCancel (direction, translatedText
display details) are carried for fidelity where the poller writes them. -/
structure TranslationStatus where
  isLoading : Bool
  progress : Nat
  status : Option String
  error : Option String
  translatedText : Option String
  fileName : Option String
  processId : Option String
  currentPage : Nat
  totalPages : Nat
  lastStatusUpdate : Option Nat
deriving DecidableEq, Repr

/-- The values a render closure of pollTranslationStatus captures:
the translationStatus and consecFailures of that render. -/
structure RenderSnapshot where
  ts : TranslationStatus
  consecFailures : Nat
deriving DecidableEq, Repr

/-- Component state relevant to polling: the latest React state
(translationStatus, consecFailures), the armed status-check timer
(statusCheckTimeoutRef) carrying the closure it will run, an in-flight
status request carrying the closure of its continuation, and whether
fetchTranslationResults was invoked. -/
structure PollerState where
  ts : TranslationStatus
  consecFailures : Nat
  statusCheckTimer : Option RenderSnapshot
  inFlight : Option RenderSnapshot
  fetchingResults : Bool
deriving DecidableEq, Repr

/-- Entry of pollTranslationStatus (lines 235-248): the closure reads its
captured processId and isLoading (line 236); with no processId or not
loading it returns without doing anything (line 239); otherwise it issues
the status request, leaving its continuation in flight. -/
def pollInvoke (cap : RenderSnapshot) (s : PollerState) : PollerState :=
  match cap.ts.processId, cap.ts.isLoading with
  | some _, true => { s with inFlight := some cap }
  | _, _ => s

/-- Outcome of the awaited checkTranslationStatus call at line 248:
either a status payload or a thrown error. -/
inductive PollOutcome where
  | success (d : StatusData)
  | failure
deriving DecidableEq, Repr

/-- Continuation of pollTranslationStatus after the awaited status call
settles (lines 250-308), executed against the current component state s
while reading captured values from cap.

Success path (lines 250-279): consecutive failures reset to 0; the
functional setTranslationStatus merges progress, status, currentPage,
totalPages and a fresh lastStatusUpdate into the latest state; on status
completed, fetchTranslationResults is called; on failed, a second update
stops loading with an error; otherwise setTimeout re-arms the timer with
this same closure (line 278).

Failure path (lines 280-308): setConsecFailures(prev => prev + 1)
increments the latest counter, but the giving-up test at line 288 reads
the CAPTURED consecFailures; when that captured value exceeds 20 the
state transitions to timeout (isLoading false, status timeout, the
captured processId written back at line 295) with no timer armed;
otherwise setTimeout re-arms the timer with this same closure
(line 307). -/
def pollContinuation (cap : RenderSnapshot) (o : PollOutcome) (now : Nat)
    (s : PollerState) : PollerState :=
  let s0 := { s with inFlight := (none : Option RenderSnapshot) }
  match o with
  | .success d =>
      let s1 := { s0 with
        consecFailures := 0,
        ts := { s0.ts with
          progress := d.progress,
          status := some d.status,
          currentPage := d.currentPage,
          totalPages := d.totalPages,
          lastStatusUpdate := some now } }
      if d.status = "completed" then
        { s1 with fetchingResults := true }
      else if d.status = "failed" then
        { s1 with ts := { s1.ts with
            isLoading := false,
            error := some "Translation failed. Please try again.",
            status := some "failed" } }
      else
        { s1 with statusCheckTimer := some cap }
  | .failure =>
      let s1 := { s0 with consecFailures := s0.consecFailures + 1 }
      if cap.consecFailures > 20 then
        { s1 with ts := { s1.ts with
            isLoading := false,
            error := some "Lost connection to the server. The translation may still be processing in the background.",
            status := some "timeout",
            processId := cap.ts.processId } }
      else
        { s1 with statusCheckTimer := some cap }

/-- handleCancel (lines 800-826): clears the pending status-check timer
and the simulated-progress interval, then sets isLoading false, status
cancelled and a cancellation error message.  It does nothing to a status
request already in flight. -/
def handleCancel (s : PollerState) : PollerState :=
  { s with
    statusCheckTimer := none,
    ts := { s.ts with
      isLoading := false,
      status := some "cancelled",
      error := some "Translation cancelled by user" } }

/-- The component state right after a submission succeeded: onTranslate
(lines 394-422) reset consecFailures to 0 and set translationStatus to a
loading pending record, then the processId arrived (lines 455-460) and
the polling useEffect (lines 312-330) fired. -/
def seededTranslationStatus (pid : String) : TranslationStatus :=
  { isLoading := true
    progress := 0
    status := some "pending"
    error := none
    translatedText := none
    fileName := some "doc.pdf"
    processId := some pid
    currentPage := 0
    totalPages := 0
    lastStatusUpdate := some 0 }

/-- The render snapshot captured by the pollTranslationStatus closure that
the polling useEffect invokes: the post-submission render, at which
consecFailures is 0. -/
def seedSnapshot (pid : String) : RenderSnapshot :=
  { ts := seededTranslationStatus pid, consecFailures := 0 }

/-- Initial poller state when the useEffect at line 312 starts polling. -/
def seededState (pid : String) : PollerState :=
  { ts := seededTranslationStatus pid
    consecFailures := 0
    statusCheckTimer := none
    inFlight := none
    fetchingResults := false }

/-- A run of the poller in which every status request fails (for example
while the network is down): state after n consecutive poll failures.
Step 0 is the direct pollTranslationStatus() call from the useEffect
(line 320).  Each subsequent step resolves the in-flight request with a
failure, runs the continuation, and lets the re-armed timer (if any)
fire, issuing the next request with the closure the timer holds. -/
def chainAfterFailures (pid : String) : Nat → PollerState
  | 0 => pollInvoke (seedSnapshot pid) (seededState pid)
  | n + 1 =>
      let s := chainAfterFailures pid n
      match s.inFlight with
      | some cap =>
          let s1 := pollContinuation cap .failure (n + 1) s
          match s1.statusCheckTimer with
          | some cap1 => pollInvoke cap1 { s1 with statusCheckTimer := none }
          | none => s1
      | none => s

/-! ## Token refresh (api.js refreshToken, lines 160-217)

Module-level auth state of api.js: authToken (line 19), the
window.__lastTokenRefresh timestamp (lines 168, 179; 0 when unset) and
the isRefreshing flag (line 25). -/

/-- Module-level token state of api.js. -/
structure AuthState where
  authToken : Option String
  lastTokenRefresh : ℤ
  isRefreshing : Bool
deriving DecidableEq, Repr

/-- What a single refreshToken call did and returned. -/
inductive RefreshOutcome where
  /-- Returned the in-flight refreshPromise (line 163): already refreshing
  and not forced. -/
  | joined
  /-- Returned authToken without any network call (line 171): not forced
  and within 60000 ms of the last refresh. -/
  | skippedCooldown (tok : Option String)
  /-- Issued a getToken network call that returned a token (line 209). -/
  | refreshed (tok : String)
  /-- Issued a getToken network call that returned null; nothing stored,
  null returned (the line 189 guard is skipped). -/
  | refreshedNull
  /-- Issued a getToken network call that threw; the error is rethrown
  (line 212) and authToken is left untouched. -/
  | refreshFailed
deriving DecidableEq, Repr

/-- Result of one refreshToken call: its outcome, the new module state and
whether a network call to the identity provider (getToken) was issued. -/
structure RefreshStep where
  outcome : RefreshOutcome
  state : AuthState
  networkCall : Bool
deriving DecidableEq, Repr

/-- refreshToken (api.js lines 160-217).  The provider argument is the
result of the awaited getToken call: a token string, null, or a thrown
error.  Both early-return guards test !force (lines 162 and 169), so a
forced call always proceeds to the network call; the cooldown guard
compares now - window.__lastTokenRefresh with 60000 ms. -/
def refreshToken (force : Bool) (now : ℤ) (provider : Except Unit (Option String))
    (s : AuthState) : RefreshStep :=
  if s.isRefreshing && !force then
    { outcome := .joined, state := s, networkCall := false }
  else if !force && decide (now - s.lastTokenRefresh < 60000) then
    { outcome := .skippedCooldown s.authToken, state := s, networkCall := false }
  else
    let s1 : AuthState := { s with lastTokenRefresh := now, isRefreshing := false }
    match provider with
    | .error _ => { outcome := .refreshFailed, state := s1, networkCall := true }
    | .ok none => { outcome := .refreshedNull, state := s1, networkCall := true }
    | .ok (some t) =>
        { outcome := .refreshed t, state := { s1 with authToken := some t }, networkCall := true }

/-! ## HTTP response interceptor (api.js registerAuthInterceptor, lines 380-517) -/

/-- JavaScript String.prototype.includes for a non-empty pattern:
the string contains the pattern iff splitting on it yields more than one
piece. -/
def includes (s pat : String) : Bool :=
  (s.splitOn pat).length != 1

/-- The parts of an axios request config the response interceptor reads
and writes: the _retry marker (line 411, line 418), the url, and the
X-Is-Status-Check header set by the request interceptor for status and
balance endpoints (lines 347-355, read at line 430). -/
structure ApiRequest where
  retryFlag : Bool
  url : String
  statusCheckHeader : Bool
deriving DecidableEq, Repr

/-- What the response-error interceptor does with a failed response. -/
inductive InterceptDecision where
  /-- Promise.reject(error): the failure is handed to the caller. -/
  | rejectErr
  /-- api(originalRequest): the request is resubmitted once (line 465). -/
  | resend (r : ApiRequest)
  /-- Mock balance payload resolved for a balance status-check whose
  recovery refresh failed (lines 475-489). -/
  | resolveBalanceFallback
  /-- Mock pending status payload resolved for a document status-check
  whose recovery refresh failed (lines 491-510). -/
  | resolveStatusFallback (pid : String)
deriving DecidableEq, Repr

/-- url.split into slash-separated segments and pop the last, as at
line 493. -/
def lastUrlSegment (url : String) : String :=
  (url.splitOn "/").getLastD ""

/-- The response-error interceptor (api.js lines 407-516).  respStatus is
error.response.status (none when there was no response); tokenFetch is
the result of the recovery window.Clerk.session.getToken call.  A request
already marked _retry is rejected outright (line 411); on 401 or 403 the
request is marked _retry (line 418) and, if a fresh token arrives, it is
resubmitted exactly once (line 465); if the token fetch throws, status
checks get mock fallback data (lines 470-511) and everything else is
rejected. -/
def responseErrorInterceptor (r : ApiRequest) (respStatus : Option Nat)
    (tokenFetch : Except Unit (Option String)) : InterceptDecision :=
  if r.retryFlag then .rejectErr
  else if respStatus = some 401 ∨ respStatus = some 403 then
    match tokenFetch with
    | .ok (some _) => .resend { r with retryFlag := true }
    | .ok none => .rejectErr
    | .error _ =>
        if r.statusCheckHeader then
          if includes r.url "/me/balance" then .resolveBalanceFallback
          else if includes r.url "/documents/status/" then
            .resolveStatusFallback (lastUrlSegment r.url)
          else .rejectErr
        else .rejectErr
  else .rejectErr

/-- Number of resubmissions the interceptor performs for one logical
request across a sequence of failed responses: each list element is the
(status, recovery-token-fetch) pair of one failed response; a resend
feeds the marked request into the next response. -/
def countRetries : ApiRequest → List (Option Nat × Except Unit (Option String)) → Nat
  | _, [] => 0
  | r, (st, tf) :: rest =>
      match responseErrorInterceptor r st tf with
      | .resend r1 => 1 + countRetries r1 rest
      | _ => 0

/-! ## Result fetch deduplication (api.js getTranslationResult, lines 1048-1140) -/

/-- State of the _activeRequests registry (line 592): in-flight result
fetches keyed by request key, each holding the promise it returned
(promises are numbered), plus a counter of result network requests
issued. -/
structure ResultFetchState where
  activeRequests : List (String × Nat)
  nextPromiseId : Nat
  networkCalls : Nat
deriving DecidableEq, Repr

/-- The dedup key of line 1050: result-(processId)-(partial or
complete). -/
def resultRequestKey (processId : String) (partialAllowed : Bool) : String :=
  "result-" ++ processId ++ "-" ++ (if partialAllowed then "partial" else "complete")

/-- getTranslationResult (lines 1048-1140), dedup behaviour.  JavaScript
runs the function body synchronously up to the awaited api.get inside the
request promise, so the registry check (line 1053), the issuing of the
network request and the registry insert (line 1137) happen atomically
with respect to other calls.  An existing entry is returned as-is
(line 1055); otherwise a network request is issued and the new promise is
registered under the key.  Returns the promise handed to the caller and
the new registry state. -/
def getTranslationResult (processId : String) (partialAllowed : Bool)
    (s : ResultFetchState) : Nat × ResultFetchState :=
  let key := resultRequestKey processId partialAllowed
  match s.activeRequests.lookup key with
  | some promiseId => (promiseId, s)
  | none =>
      (s.nextPromiseId,
        { activeRequests := (key, s.nextPromiseId) :: s.activeRequests,
          nextPromiseId := s.nextPromiseId + 1,
          networkCalls := s.networkCalls + 1 })

/-- Settlement of a result fetch: the finally block at line 1132 removes
the key from the registry. -/
def completeResultRequest (processId : String) (partialAllowed : Bool)
    (s : ResultFetchState) : ResultFetchState :=
  { s with activeRequests :=
      s.activeRequests.filter (fun kv => kv.1 != resultRequestKey processId partialAllowed) }

/-! ## Submission timeout recovery (api.js initiateTranslation, lines 749-803) -/

/-- The error thrown by the upload request: its code (ECONNABORTED for an
axios timeout), message, and response status when a response exists. -/
structure UploadError where
  code : Option String
  message : String
  responseStatus : Option Nat
deriving DecidableEq, Repr

/-- A job record returned by findTranslationByFile (lines 681-695). -/
structure FoundTranslation where
  processId : String
  status : String
deriving DecidableEq, Repr

/-- The object initiateTranslation returns when it recovers a job after a
submission timeout (lines 766-772). -/
structure RecoveredInitResponse where
  processId : String
  status : String
  recoveredAfterTimeout : Bool
deriving DecidableEq, Repr

/-- Outcome of the catch block of initiateTranslation. -/
inductive InitFailureOutcome where
  /-- Returned the found job with recoveredAfterTimeout set. -/
  | recovered (resp : RecoveredInitResponse)
  /-- Threw the distinguished error telling the user the document may
  still be processing (lines 778-782). -/
  | mayStillBeProcessingErr
  /-- Entered the 401/403 _handleAuthError path (lines 786-800). -/
  | authRetryPath
  /-- Rethrew the original error (line 802). -/
  | rethrown (message : String)
deriving DecidableEq, Repr

/-- Delay before the recovery lookup: the awaited 1000 ms sleep at
line 760. -/
def recoveryLookupDelayMs : Nat := 1000

/-- The catch block of initiateTranslation (lines 749-803).  The timeout
test transcribes error.code === ECONNABORTED or
error.message.includes(timeout) at line 754.  findRes is the result of
the findTranslationByFile call made after the 1000 ms wait; a lookup
that itself throws is caught at line 774 and falls through to the
distinguished error. -/
def initiateTranslationFailurePath (e : UploadError)
    (findRes : Except Unit (Option FoundTranslation)) : InitFailureOutcome :=
  if e.code = some "ECONNABORTED" ∨ includes e.message "timeout" = true then
    match findRes with
    | .ok (some f) =>
        .recovered { processId := f.processId, status := f.status, recoveredAfterTimeout := true }
    | .ok none => .mayStillBeProcessingErr
    | .error _ => .mayStillBeProcessingErr
  else if e.responseStatus = some 401 ∨ e.responseStatus = some 403 then .authRetryPath
  else .rethrown e.message

/-! ## Status check with retries and fallback cache
(api.js checkTranslationStatus, lines 806-956, and the _lastKnownStatus
cache helpers, lines 634-665) -/

/-- The status object checkTranslationStatus returns: server fields plus
the fallback and network-estimate markers the error paths attach. -/
structure StatusResponse where
  processId : String
  status : String
  progress : Nat
  currentPage : Nat
  totalPages : Nat
  isFallback : Bool
  isNetworkEstimate : Bool
  networkError : Option String
  timestamp : Option Nat
deriving DecidableEq, Repr

/-- The _lastKnownStatus map (line 595): processId to last stored
status. -/
abbrev StatusCache := List (String × StatusResponse)

/-- A successful server status payload viewed as a StatusResponse. -/
def statusDataToResponse (pid : String) (d : StatusData) : StatusResponse :=
  { processId := pid
    status := d.status
    progress := d.progress
    currentPage := d.currentPage
    totalPages := d.totalPages
    isFallback := false
    isNetworkEstimate := false
    networkError := none
    timestamp := none }

/-- _updateLastKnownStatus (lines 660-665): store the payload under the
process id with a fresh timestamp. -/
def updateLastKnownStatus (cache : StatusCache) (pid : String) (d : StatusData)
    (now : Nat) : StatusCache :=
  (pid, { statusDataToResponse pid d with timestamp := some now })
    :: cache.filter (fun kv => kv.1 != pid)

/-- _createFallbackStatus (lines 634-657): the cached last known status
marked isFallback with a fresh timestamp, or a default pending record if
nothing was cached. -/
def createFallbackStatus (cache : StatusCache) (pid : String) (now : Nat) : StatusResponse :=
  match cache.lookup pid with
  | some last => { last with isFallback := true, timestamp := some now }
  | none =>
      { processId := pid
        status := "pending"
        progress := 0
        currentPage := 0
        totalPages := 0
        isFallback := true
        isNetworkEstimate := false
        networkError := none
        timestamp := some now }

/-- Classified outcome of one status GET attempt, matching the error
tests of lines 853-869: a payload; a network error or timeout or missing
response (line 855); or an HTTP error response with a status code. -/
inductive StatusAttempt where
  | ok (d : StatusData)
  | networkErr (msg : String)
  | httpErr (code : Nat)
deriving DecidableEq, Repr

/-- The synthetic status returned for a network error or timeout
(lines 856-865): a hardcoded pending record marked isNetworkEstimate; the
_lastKnownStatus cache is not consulted. -/
def networkEstimateStatus (pid : String) (msg : String) : StatusResponse :=
  { processId := pid
    status := "pending"
    progress := 0
    currentPage := 0
    totalPages := 0
    isFallback := false
    isNetworkEstimate := true
    networkError := some msg
    timestamp := none }

/-- The retry loop of checkTranslationStatus (lines 834-952), with
maxRetries = 2.  Each list element is one attempt outcome paired with the
result of the token refresh the loop would perform before retrying.
Transcription per iteration: a payload is cached and returned
(lines 846-852); a network error returns the synthetic pending estimate
(lines 855-866); a 403 with retryCount below 2 and a fresh token
continues the loop with retryCount incremented, any other 403 returns the
cached fallback (lines 869-905); a 401 behaves the same except that when
its token refresh fails the code falls to the final checks with the
incremented count, throwing when below the cap (lines 908-942, 944-950);
any other HTTP error returns the fallback at the cap and throws below it
(lines 945-950); exiting the loop without a return yields the fallback
(line 955). -/
def checkStatusLoop (pid : String) (now : Nat) :
    Nat → List (StatusAttempt × Except Unit (Option String)) → StatusCache →
      Except Unit StatusResponse × StatusCache
  | _, [], cache => (.ok (createFallbackStatus cache pid now), cache)
  | retryCount, (att, tok) :: rest, cache =>
      match att with
      | .ok d => (.ok (statusDataToResponse pid d), updateLastKnownStatus cache pid d now)
      | .networkErr msg => (.ok (networkEstimateStatus pid msg), cache)
      | .httpErr code =>
          if code = 403 then
            if retryCount < 2 then
              match tok with
              | .ok (some _) => checkStatusLoop pid now (retryCount + 1) rest cache
              | _ => (.ok (createFallbackStatus cache pid now), cache)
            else (.ok (createFallbackStatus cache pid now), cache)
          else if code = 401 then
            if retryCount < 2 then
              match tok with
              | .ok (some _) => checkStatusLoop pid now (retryCount + 1) rest cache
              | _ =>
                  if retryCount + 1 ≥ 2 then (.ok (createFallbackStatus cache pid now), cache)
                  else (.error (), cache)
            else (.ok (createFallbackStatus cache pid now), cache)
          else
            if retryCount ≥ 2 then (.ok (createFallbackStatus cache pid now), cache)
            else (.error (), cache)

/-- checkTranslationStatus (lines 806-956): the retry loop started at
retryCount 0.  The pre-loop token freshness check (lines 812-832) is a
no-op because shouldRefreshToken is the constant false function
(line 71). -/
def checkTranslationStatus (pid : String) (now : Nat)
    (attempts : List (StatusAttempt × Except Unit (Option String)))
    (cache : StatusCache) : Except Unit StatusResponse × StatusCache :=
  checkStatusLoop pid now 0 attempts cache

/-- A cached in-progress status used as concrete test data. -/
def cachedInProgressExample : StatusResponse :=
  { processId := "job-1"
    status := "in_progress"
    progress := 50
    currentPage := 3
    totalPages := 6
    isFallback := false
    isNetworkEstimate := false
    networkError := none
    timestamp := some 111 }

/-! ## ensureValidToken (DocumentTranslation.jsx, lines 61-70) -/

/-- JavaScript runtime errors relevant to ensureValidToken. -/
inductive JsError where
  | referenceErr (msg : String)
  | generic (msg : String)
deriving DecidableEq, Repr

/-- The balanceService.invalidateCache() call at line 65.  The identifier
balanceService is neither imported by DocumentTranslation.jsx (see the
imports at its lines 1-10) nor exported by api.js, so evaluating it
throws a ReferenceError. -/
def invalidateBalanceCacheCall : Except JsError Unit :=
  .error (.referenceErr "balanceService is not defined")

/-- ensureValidToken (lines 61-70): awaits refreshToken, then calls
balanceService.invalidateCache(); the surrounding try/catch absorbs any
error from either step, logging it and returning normally, so the
function never rejects. -/
def ensureValidToken (refreshResult : Except JsError (Option String)) : Except JsError Unit :=
  match refreshResult with
  | .error _ => .ok ()
  | .ok _ =>
      match invalidateBalanceCacheCall with
      | .error _ => .ok ()
      | .ok _ => .ok ()

theorem pollBaseInterval_le (status : Option String) (progress : Nat) (isStalled : Bool) :
    pollBaseInterval status progress isStalled ≤ 4000 := by
  unfold pollBaseInterval
  split_ifs <;> norm_num

theorem one_le_three_half_pow (n : Nat) : (1 : ℚ) ≤ (3 / 2 : ℚ) ^ n := by
  induction n with
  | zero => norm_num
  | succ k ih =>
      calc (1 : ℚ) = 1 * 1 := by norm_num
        _ ≤ (3 / 2 : ℚ) ^ k * (3 / 2) := by
              apply mul_le_mul ih (by norm_num) (by norm_num)
              positivity
        _ = (3 / 2 : ℚ) ^ (k + 1) := by ring

theorem failureBackoff_nonneg (failures : Nat) : 0 ≤ failureBackoff failures := by
  unfold failureBackoff
  split_ifs
  · apply le_min
    · have := one_le_three_half_pow failures
      nlinarith
    · norm_num
  · norm_num

theorem failureBackoff_le (failures : Nat) : failureBackoff failures ≤ 15000 := by
  unfold failureBackoff
  split_ifs
  · exact min_le_right _ _
  · norm_num

/-- Claim C5, counterexample: the claim bounds every computed next-poll
delay by base + maximal jitter + maximal failure backoff
= 4000 + 500 + 15000 = 19500 ms, with the failure backoff clamped at
15000 ms.  But the error-path delay of pollTranslationStatus (line 305)
is clamped at 30000 ms, not 15000 ms: at 6 consecutive failures it
computes min(2000 * 1.5 ^ 6, 30000) = 22781.25 ms, which exceeds
19500 ms. -/
theorem pollErrorBackoff_exceeds_claimed_bound :
    (19500 : ℚ) < pollErrorBackoff 6 ∧ pollErrorBackoff 6 = 91125 / 4 := by
  constructor <;> norm_num [pollErrorBackoff, min_def]

/-- Claim C5, amended: the success-path interval getPollInterval always
lies in [1000, 19500] ms for any status, progress, stalled flag, failure
count and jitter in the integer range [-500, 499] produced by the source
(base at most 4000, jitter at most 499, failure backoff clamped to
15000); the error-path retry delay is a separate computation bounded in
[2000, 30000] ms, its exponential growth clamped at 30000 ms rather than
15000 ms. -/
theorem pollInterval_bounds (status : Option String) (progress : Nat) (isStalled : Bool)
    (failures failures2 : Nat) (jitter : ℤ)
    (_h1 : -500 ≤ jitter) (h2 : jitter ≤ 499) :
    1000 ≤ getPollInterval status progress isStalled failures jitter
    ∧ getPollInterval status progress isStalled failures jitter ≤ 19500
    ∧ 2000 ≤ pollErrorBackoff failures2
    ∧ pollErrorBackoff failures2 ≤ 30000 := by
  refine ⟨le_max_left _ _, ?_, ?_, min_le_right _ _⟩
  · have hb := pollBaseInterval_le status progress isStalled
    have hf := failureBackoff_le failures
    have hj : (jitter : ℚ) ≤ 499 := by exact_mod_cast h2
    unfold getPollInterval
    apply max_le (by norm_num)
    linarith
  · apply le_min
    · have := one_le_three_half_pow failures2
      nlinarith
    · norm_num

/-- Claim C5, witness for the amended bound theorem at a concrete input. -/
theorem pollInterval_bounds_witness :
    1000 ≤ getPollInterval (some "in_progress") 40 false 3 (-123)
    ∧ getPollInterval (some "in_progress") 40 false 3 (-123) ≤ 19500
    ∧ 2000 ≤ pollErrorBackoff 9
    ∧ pollErrorBackoff 9 ≤ 30000 :=
  pollInterval_bounds (some "in_progress") 40 false 3 9 (-123) (by norm_num) (by norm_num)

theorem chainAfterFailures_eq (pid : String) (n : Nat) :
    chainAfterFailures pid n =
      { seededState pid with consecFailures := n, inFlight := some (seedSnapshot pid) } := by
  induction n with
  | zero =>
      simp [chainAfterFailures, pollInvoke, seedSnapshot, seededState, seededTranslationStatus]
  | succ k ih =>
      rw [chainAfterFailures, ih]
      simp [pollContinuation, pollInvoke, seedSnapshot, seededState, seededTranslationStatus]

/-- Claim C2: the claim (and the comments at lines 286-289 of the source)
say that once consecutive poll failures exceed the ceiling of 20 the job
transitions to timeout, isLoading becomes false and polling stops.  The
code does not do this: the giving-up test at line 288 reads the
consecFailures value captured by the timer-chain closure, which is 0 for
a chain seeded by the post-submission useEffect, because both setTimeout
calls (lines 278, 307) re-arm the same closure.  After 25 consecutive
failures the true counter is 25, yet the state is still loading with
status pending and a further status request is in flight: the timeout
transition never fires in this run. -/
theorem chain_of_25_failures_never_times_out :
    (chainAfterFailures "job-1" 25).ts.status = some "pending"
    ∧ (chainAfterFailures "job-1" 25).ts.status ≠ some "timeout"
    ∧ (chainAfterFailures "job-1" 25).ts.isLoading = true
    ∧ (chainAfterFailures "job-1" 25).consecFailures = 25
    ∧ (chainAfterFailures "job-1" 25).inFlight = some (seedSnapshot "job-1") := by
  rw [chainAfterFailures_eq]
  refine ⟨rfl, ?_, rfl, rfl, rfl⟩
  simp [seededState, seededTranslationStatus]

/-- Claim C1, counterexample: cancelling while a poll is in flight does
not discard the response.  Concretely: from the post-submission state
with a request in flight, handleCancel sets status cancelled and clears
the timer; when the in-flight response (in_progress, 40 percent) then
arrives, its continuation overwrites translationStatus (status becomes
in_progress, progress 40) and arms a new poll timer, contradicting the
claim that no field changes and no further timer is armed. -/
theorem cancel_does_not_discard_inflight_poll :
    (handleCancel { seededState "job-1" with inFlight := some (seedSnapshot "job-1") }).ts.status
      = some "cancelled"
    ∧ (pollContinuation (seedSnapshot "job-1") (.success ⟨"in_progress", 40, 2, 5⟩) 99
        (handleCancel { seededState "job-1" with inFlight := some (seedSnapshot "job-1") })).ts.status
      = some "in_progress"
    ∧ (pollContinuation (seedSnapshot "job-1") (.success ⟨"in_progress", 40, 2, 5⟩) 99
        (handleCancel { seededState "job-1" with inFlight := some (seedSnapshot "job-1") })).ts.progress
      = 40
    ∧ (pollContinuation (seedSnapshot "job-1") (.success ⟨"in_progress", 40, 2, 5⟩) 99
        (handleCancel { seededState "job-1" with inFlight := some (seedSnapshot "job-1") })).statusCheckTimer
      = some (seedSnapshot "job-1") := by
  refine ⟨rfl, ?_, ?_, ?_⟩ <;>
    simp [pollContinuation, handleCancel, seededState, seededTranslationStatus, seedSnapshot]

/-- Claim C1, amended: handleCancel synchronously clears the pending poll
timer and sets the state to cancelled, so no timer-scheduled poll fires;
but the continuation of a poll already in flight is not discarded: when
its response arrives with any non-terminal status, it overwrites the
status, progress, page and timestamp fields of the cancelled
translationStatus and arms a further poll timer with its captured
closure. -/
theorem cancelled_state_overwritten_by_inflight_poll
    (s : PollerState) (cap : RenderSnapshot) (d : StatusData) (now : Nat)
    (h1 : d.status ≠ "completed") (h2 : d.status ≠ "failed") :
    (handleCancel s).statusCheckTimer = none
    ∧ (handleCancel s).ts.status = some "cancelled"
    ∧ (pollContinuation cap (.success d) now (handleCancel s)).ts.status = some d.status
    ∧ (pollContinuation cap (.success d) now (handleCancel s)).ts.progress = d.progress
    ∧ (pollContinuation cap (.success d) now (handleCancel s)).statusCheckTimer = some cap := by
  refine ⟨rfl, rfl, ?_, ?_, ?_⟩ <;> simp [pollContinuation, handleCancel, h1, h2]

/-- Claim C1, witness for the amended theorem at a concrete input. -/
theorem cancelled_state_overwritten_by_inflight_poll_witness :
    (handleCancel (seededState "w1")).statusCheckTimer = none
    ∧ (handleCancel (seededState "w1")).ts.status = some "cancelled"
    ∧ (pollContinuation (seedSnapshot "w1") (.success ⟨"in_progress", 55, 3, 6⟩) 7
        (handleCancel (seededState "w1"))).ts.status = some "in_progress"
    ∧ (pollContinuation (seedSnapshot "w1") (.success ⟨"in_progress", 55, 3, 6⟩) 7
        (handleCancel (seededState "w1"))).ts.progress = 55
    ∧ (pollContinuation (seedSnapshot "w1") (.success ⟨"in_progress", 55, 3, 6⟩) 7
        (handleCancel (seededState "w1"))).statusCheckTimer = some (seedSnapshot "w1") :=
  cancelled_state_overwritten_by_inflight_poll (seededState "w1") (seedSnapshot "w1")
    ⟨"in_progress", 55, 3, 6⟩ 7 (by decide) (by decide)

/-- Claim C3, counterexample: both rate-limit guards of refreshToken test
!force (lines 162 and 169), so two forced refreshes 1000 ms apart (well
within the 60000 ms cooldown) each issue a getToken network call, and the
second returns a freshly fetched token rather than the most recent known
one: the claimed at-most-one-network-call property fails. -/
theorem forced_refresh_twice_in_cooldown_issues_two_calls :
    (refreshToken true 1000 (Except.ok (some "t1"))
        { authToken := some "t0", lastTokenRefresh := 0, isRefreshing := false }).networkCall = true
    ∧ (refreshToken true 2000 (Except.ok (some "t2"))
        (refreshToken true 1000 (Except.ok (some "t1"))
          { authToken := some "t0", lastTokenRefresh := 0, isRefreshing := false }).state).networkCall
      = true
    ∧ (refreshToken true 2000 (Except.ok (some "t2"))
        (refreshToken true 1000 (Except.ok (some "t1"))
          { authToken := some "t0", lastTokenRefresh := 0, isRefreshing := false }).state).outcome
      = RefreshOutcome.refreshed "t2" := by
  decide

/-- Claim C3, amended: the 60000 ms cooldown applies only to non-forced
refreshes: a refreshToken call with force = false within the cooldown
window issues no network call and returns the stored token, while a call
with force = true bypasses both guards and always issues a network call
to the identity provider. -/
theorem cooldown_applies_only_to_unforced_refresh
    (s : AuthState) (now : ℤ) (provider : Except Unit (Option String))
    (href : s.isRefreshing = false) (hcool : now - s.lastTokenRefresh < 60000) :
    (refreshToken false now provider s).networkCall = false
    ∧ (refreshToken false now provider s).outcome = .skippedCooldown s.authToken
    ∧ (refreshToken true now provider s).networkCall = true := by
  refine ⟨?_, ?_, ?_⟩
  · simp [refreshToken, href, hcool]
  · simp [refreshToken, href, hcool]
  · cases provider with
    | error e => simp [refreshToken]
    | ok t => cases t <;> simp [refreshToken]

/-- Claim C3, witness for the amended theorem at a concrete input. -/
theorem cooldown_applies_only_to_unforced_refresh_witness :
    (refreshToken false 2000 (Except.ok (some "t2"))
        { authToken := some "t1", lastTokenRefresh := 1000, isRefreshing := false }).networkCall
      = false
    ∧ (refreshToken false 2000 (Except.ok (some "t2"))
        { authToken := some "t1", lastTokenRefresh := 1000, isRefreshing := false }).outcome
      = RefreshOutcome.skippedCooldown (some "t1")
    ∧ (refreshToken true 2000 (Except.ok (some "t2"))
        { authToken := some "t1", lastTokenRefresh := 1000, isRefreshing := false }).networkCall
      = true :=
  cooldown_applies_only_to_unforced_refresh
    { authToken := some "t1", lastTokenRefresh := 1000, isRefreshing := false }
    2000 (Except.ok (some "t2")) rfl (by norm_num)

/-- Claim C7, counterexample: with a previously obtained token still held
(authToken = some stale-token) and the identity provider unreachable, a
forced refresh reaches the getToken call, which throws; refreshToken
rethrows the error (line 212) instead of returning the held stale token,
contradicting the claim that the failure propagates only when no previous
token exists. -/
theorem refresh_failure_raises_despite_stale_token :
    (refreshToken true 100000 (Except.error ())
        { authToken := some "stale-token", lastTokenRefresh := 0, isRefreshing := false }).outcome
      = RefreshOutcome.refreshFailed
    ∧ (refreshToken true 100000 (Except.error ())
        { authToken := some "stale-token", lastTokenRefresh := 0, isRefreshing := false }).state.authToken
      = some "stale-token" := by
  decide

/-- Claim C7, amended: whenever refreshToken actually attempts a network
refresh (forced, or unforced outside the cooldown window) and the
identity provider is unreachable, the error propagates to the caller
regardless of whether a previous token is held; the held token stays
stored in the module state but is not returned.  Only the cooldown
early-return path hands back the previously held token without
contacting the provider. -/
theorem refresh_failure_propagates_token_kept
    (s : AuthState) (now : ℤ) (force : Bool)
    (h : force = true ∨ (s.isRefreshing = false ∧ 60000 ≤ now - s.lastTokenRefresh)) :
    (refreshToken force now (Except.error ()) s).outcome = RefreshOutcome.refreshFailed
    ∧ (refreshToken force now (Except.error ()) s).state.authToken = s.authToken := by
  rcases h with h | ⟨h1, h2⟩
  · subst h
    simp [refreshToken]
  · have hnl : ¬ (now - s.lastTokenRefresh < 60000) := not_lt.mpr h2
    simp [refreshToken, h1, hnl]

/-- Claim C7, witness for the amended theorem at a concrete input. -/
theorem refresh_failure_propagates_token_kept_witness :
    (refreshToken false 90000 (Except.error ())
        { authToken := some "held", lastTokenRefresh := 0, isRefreshing := false }).outcome
      = RefreshOutcome.refreshFailed
    ∧ (refreshToken false 90000 (Except.error ())
        { authToken := some "held", lastTokenRefresh := 0, isRefreshing := false }).state.authToken
      = some "held" :=
  refresh_failure_propagates_token_kept
    { authToken := some "held", lastTokenRefresh := 0, isRefreshing := false }
    90000 false (Or.inr ⟨rfl, by norm_num⟩)

theorem resend_sets_retryFlag {r : ApiRequest} {st : Option Nat}
    {tf : Except Unit (Option String)} {r1 : ApiRequest}
    (h : responseErrorInterceptor r st tf = .resend r1) : r1.retryFlag = true := by
  unfold responseErrorInterceptor at h
  by_cases h1 : r.retryFlag
  · rw [if_pos h1] at h
    cases h
  · rw [if_neg h1] at h
    by_cases h2 : st = some 401 ∨ st = some 403
    · rw [if_pos h2] at h
      rcases tf with e | tok
      · dsimp only at h
        split_ifs at h
      · rcases tok with _ | t
        · cases h
        · dsimp only at h
          injection h with h3
          rw [← h3]
    · rw [if_neg h2] at h
      cases h

theorem countRetries_flagged (r : ApiRequest)
    (l : List (Option Nat × Except Unit (Option String)))
    (h : r.retryFlag = true) : countRetries r l = 0 := by
  cases l with
  | nil => rfl
  | cons p rest =>
      obtain ⟨st, tf⟩ := p
      simp [countRetries, responseErrorInterceptor, h]

theorem countRetries_le_one (r : ApiRequest)
    (l : List (Option Nat × Except Unit (Option String))) : countRetries r l ≤ 1 := by
  cases l with
  | nil => simp [countRetries]
  | cons p rest =>
      obtain ⟨st, tf⟩ := p
      rcases hdec : responseErrorInterceptor r st tf with _ | r1 | _ | pid <;>
        simp [countRetries, hdec]
      rw [countRetries_flagged r1 rest (resend_sets_retryFlag hdec)]

/-- Claim C4: for one logical request fed through any sequence of failed
responses, the interceptor resubmits at most once; a request already
marked _retry is never resubmitted; and an unmarked request whose first
response is 401 or 403 with a successful recovery token fetch is
resubmitted exactly once, whatever responses follow. -/
theorem auth_retry_at_most_once
    (r : ApiRequest) (events : List (Option Nat × Except Unit (Option String)))
    (t : String) (h : r.retryFlag = false) :
    countRetries r events ≤ 1
    ∧ countRetries { r with retryFlag := true } events = 0
    ∧ countRetries r ((some 401, Except.ok (some t)) :: events) = 1
    ∧ countRetries r ((some 403, Except.ok (some t)) :: events) = 1 := by
  have h0 : countRetries { r with retryFlag := true } events = 0 :=
    countRetries_flagged { r with retryFlag := true } events rfl
  refine ⟨countRetries_le_one r events, h0, ?_, ?_⟩
  · have hdec : responseErrorInterceptor r (some 401) (Except.ok (some t))
        = .resend { r with retryFlag := true } := by
      simp [responseErrorInterceptor, h]
    simp [countRetries, hdec, h0]
  · have hdec : responseErrorInterceptor r (some 403) (Except.ok (some t))
        = .resend { r with retryFlag := true } := by
      simp [responseErrorInterceptor, h]
    simp [countRetries, hdec, h0]

/-- Claim C4, witness at a concrete request and response sequence. -/
theorem auth_retry_at_most_once_witness :
    countRetries { retryFlag := false, url := "/documents/status/abc", statusCheckHeader := true }
        [(some 403, Except.error ())] ≤ 1
    ∧ countRetries { retryFlag := true, url := "/documents/status/abc", statusCheckHeader := true }
        [(some 403, Except.error ())] = 0
    ∧ countRetries { retryFlag := false, url := "/documents/status/abc", statusCheckHeader := true }
        ((some 401, Except.ok (some "tok")) :: [(some 403, Except.error ())]) = 1
    ∧ countRetries { retryFlag := false, url := "/documents/status/abc", statusCheckHeader := true }
        ((some 403, Except.ok (some "tok")) :: [(some 403, Except.error ())]) = 1 :=
  auth_retry_at_most_once
    { retryFlag := false, url := "/documents/status/abc", statusCheckHeader := true }
    [(some 403, Except.error ())] "tok" rfl

/-- Claim C6: two calls to getTranslationResult with the same
(processId, allowPartial) pair, the second arriving while the first is
still unsettled, return the same promise, leave the registry unchanged by
the second call, and issue exactly one network request between them. -/
theorem result_fetch_dedup
    (s : ResultFetchState) (pid : String) (pa : Bool)
    (h : s.activeRequests.lookup (resultRequestKey pid pa) = none) :
    (getTranslationResult pid pa ((getTranslationResult pid pa s).2)).1
      = (getTranslationResult pid pa s).1
    ∧ (getTranslationResult pid pa ((getTranslationResult pid pa s).2)).2
      = (getTranslationResult pid pa s).2
    ∧ ((getTranslationResult pid pa s).2).networkCalls = s.networkCalls + 1
    ∧ ((getTranslationResult pid pa ((getTranslationResult pid pa s).2)).2).networkCalls
      = s.networkCalls + 1 := by
  simp [getTranslationResult, h, List.lookup]

/-- Claim C6, witness at a concrete empty registry. -/
theorem result_fetch_dedup_witness :
    (getTranslationResult "job-9" true ((getTranslationResult "job-9" true ⟨[], 0, 0⟩).2)).1
      = (getTranslationResult "job-9" true ⟨[], 0, 0⟩).1
    ∧ (getTranslationResult "job-9" true ((getTranslationResult "job-9" true ⟨[], 0, 0⟩).2)).2
      = (getTranslationResult "job-9" true ⟨[], 0, 0⟩).2
    ∧ ((getTranslationResult "job-9" true ⟨[], 0, 0⟩).2).networkCalls = 0 + 1
    ∧ ((getTranslationResult "job-9" true
          ((getTranslationResult "job-9" true ⟨[], 0, 0⟩).2)).2).networkCalls = 0 + 1 :=
  result_fetch_dedup ⟨[], 0, 0⟩ "job-9" true rfl

/-- Claim C8: on an upload failure classified as a timeout, the recovery
path adopts the job found by file name, returning its processId with
recoveredAfterTimeout set, after the 1000 ms wait; when the lookup finds
nothing (or itself fails) the distinguished may-still-be-processing error
is thrown instead of a hard failure. -/
theorem timeout_recovery_adopts_found_job
    (e : UploadError) (f : FoundTranslation)
    (h : e.code = some "ECONNABORTED" ∨ includes e.message "timeout" = true) :
    initiateTranslationFailurePath e (Except.ok (some f))
      = .recovered { processId := f.processId, status := f.status, recoveredAfterTimeout := true }
    ∧ initiateTranslationFailurePath e (Except.ok none) = .mayStillBeProcessingErr
    ∧ initiateTranslationFailurePath e (Except.error ()) = .mayStillBeProcessingErr
    ∧ recoveryLookupDelayMs = 1000 := by
  refine ⟨?_, ?_, ?_, rfl⟩ <;>
    simp only [initiateTranslationFailurePath, if_pos h]

/-- Claim C8, witness at a concrete timed-out upload. -/
theorem timeout_recovery_adopts_found_job_witness :
    initiateTranslationFailurePath
        { code := some "ECONNABORTED", message := "timeout of 60000ms exceeded", responseStatus := none }
        (Except.ok (some { processId := "J2", status := "in_progress" }))
      = .recovered { processId := "J2", status := "in_progress", recoveredAfterTimeout := true }
    ∧ initiateTranslationFailurePath
        { code := some "ECONNABORTED", message := "timeout of 60000ms exceeded", responseStatus := none }
        (Except.ok none) = .mayStillBeProcessingErr
    ∧ initiateTranslationFailurePath
        { code := some "ECONNABORTED", message := "timeout of 60000ms exceeded", responseStatus := none }
        (Except.error ()) = .mayStillBeProcessingErr
    ∧ recoveryLookupDelayMs = 1000 :=
  timeout_recovery_adopts_found_job
    { code := some "ECONNABORTED", message := "timeout of 60000ms exceeded", responseStatus := none }
    { processId := "J2", status := "in_progress" } (Or.inl rfl)

/-- Claim C9, counterexample: with a cached in_progress status at 50
percent for the job, a status check failing with a network timeout does
not return that cached status: it returns the hardcoded pending estimate
(status pending, progress 0, no isFallback marking), ignoring the
cache. -/
theorem network_error_fallback_ignores_cache :
    (checkTranslationStatus "job-1" 500
        [(.networkErr "timeout of 15000ms exceeded", Except.ok none)]
        [("job-1", cachedInProgressExample)]).1
      = Except.ok (networkEstimateStatus "job-1" "timeout of 15000ms exceeded")
    ∧ (networkEstimateStatus "job-1" "timeout of 15000ms exceeded").status = "pending"
    ∧ (networkEstimateStatus "job-1" "timeout of 15000ms exceeded").progress = 0
    ∧ (networkEstimateStatus "job-1" "timeout of 15000ms exceeded").isFallback = false
    ∧ (List.lookup "job-1" [("job-1", cachedInProgressExample)]
        : Option StatusResponse) = some cachedInProgressExample
    ∧ cachedInProgressExample.status = "in_progress" := by
  refine ⟨rfl, rfl, rfl, rfl, ?_, rfl⟩
  simp [List.lookup]

/-- Claim C9, amended: checkTranslationStatus never throws on a network
error or timeout, but that branch returns a synthetic pending status
marked isNetworkEstimate and ignores the last-known cache; the cached
last known status (with isFallback marking and a fresh timestamp) is
returned only on the auth-error paths, for example when 403 responses
exhaust the two retries. -/
theorem status_check_fallback_semantics
    (pid : String) (now : Nat) (msg : String) (cache : StatusCache)
    (tok1 tok2 : Except Unit (Option String)) (c : StatusResponse)
    (hc : cache.lookup pid = some c) :
    (checkTranslationStatus pid now [(.networkErr msg, tok1)] cache).1
      = Except.ok (networkEstimateStatus pid msg)
    ∧ (checkTranslationStatus pid now
        [(.httpErr 403, Except.ok (some "t1")), (.httpErr 403, Except.ok (some "t2")),
          (.httpErr 403, tok2)] cache).1
      = Except.ok { c with isFallback := true, timestamp := some now } := by
  constructor
  · rfl
  · simp [checkTranslationStatus, checkStatusLoop, createFallbackStatus, hc]

/-- Claim C9, witness for the amended theorem at a concrete cache. -/
theorem status_check_fallback_semantics_witness :
    (checkTranslationStatus "job-1" 500 [(.networkErr "net down", Except.ok none)]
        [("job-1", cachedInProgressExample)]).1
      = Except.ok (networkEstimateStatus "job-1" "net down")
    ∧ (checkTranslationStatus "job-1" 500
        [(.httpErr 403, Except.ok (some "t1")), (.httpErr 403, Except.ok (some "t2")),
          (.httpErr 403, Except.error ())]
        [("job-1", cachedInProgressExample)]).1
      = Except.ok { cachedInProgressExample with isFallback := true, timestamp := some 500 } :=
  status_check_fallback_semantics "job-1" 500 "net down"
    [("job-1", cachedInProgressExample)] (Except.ok none) (Except.error ())
    cachedInProgressExample (by simp [List.lookup])

/-- Claim C10: ensureValidToken never rejects: whatever the token refresh
does, and although the balance-cache invalidation call itself throws a
ReferenceError (balanceService is neither imported nor defined in the
module), the catch absorbs the error and the function returns normally,
so onTranslate continues to submission. -/
theorem ensureValidToken_never_rejects (r : Except JsError (Option String)) :
    ensureValidToken r = Except.ok ()
    ∧ invalidateBalanceCacheCall
      = Except.error (JsError.referenceErr "balanceService is not defined") := by
  constructor
  · cases r <;> rfl
  · rfl
